import Mathlib

/-!
Verification development for the flow-track-crypto analysis core.

The numeric semantics of the TypeScript source is embedded shallowly:
JavaScript numbers are modelled as exact rationals (`ℚ`) where the code only
uses field operations, and as real numbers (`ℝ`) where `Math.sqrt` enters
(statistics helpers of the trend classifier and anomaly detector).  The
non-finite values JavaScript produces on degenerate order books
(`Math.max()` of an empty list, division by zero, `Infinity` sentinels) are
modelled explicitly by the `JsVal` type with IEEE-754 propagation rules.
Timestamps are carried as rational tick values; the ISO formatting of
timestamps and the human-readable diagnostic strings built with `toFixed`
are presentation-layer formatting and are not modelled.
-/

/-- A JavaScript number that may be non-finite: a finite value (kept exact as
a rational), `Infinity`, `-Infinity`, or `NaN`. -/
inductive JsVal where
  | num (q : ℚ)
  | posInf
  | negInf
  | nan
deriving DecidableEq

/-- `Math.max` on two values: `NaN` propagates, `Infinity` dominates. -/
def jsMax : JsVal → JsVal → JsVal
  | .nan, _ => .nan
  | _, .nan => .nan
  | .posInf, _ => .posInf
  | _, .posInf => .posInf
  | .negInf, v => v
  | v, .negInf => v
  | .num a, .num b => .num (max a b)

/-- `Math.min` on two values. -/
def jsMin : JsVal → JsVal → JsVal
  | .nan, _ => .nan
  | _, .nan => .nan
  | .negInf, _ => .negInf
  | _, .negInf => .negInf
  | .posInf, v => v
  | v, .posInf => v
  | .num a, .num b => .num (min a b)

/-- `Math.max(...xs)` over finite inputs: `-Infinity` when the list is empty. -/
def jsMaxList (xs : List ℚ) : JsVal :=
  xs.foldl (fun acc q => jsMax acc (.num q)) .negInf

/-- `Math.min(...xs)` over finite inputs: `Infinity` when the list is empty. -/
def jsMinList (xs : List ℚ) : JsVal :=
  xs.foldl (fun acc q => jsMin acc (.num q)) .posInf

/-- IEEE-754 subtraction on possibly non-finite values. -/
def jsSub : JsVal → JsVal → JsVal
  | .nan, _ => .nan
  | _, .nan => .nan
  | .posInf, .posInf => .nan
  | .posInf, _ => .posInf
  | .negInf, .negInf => .nan
  | .negInf, _ => .negInf
  | .num _, .posInf => .negInf
  | .num _, .negInf => .posInf
  | .num a, .num b => .num (a - b)

/-- IEEE-754 division; the rational zero stands for JavaScript's `+0`, so a
finite nonzero value divided by zero gives a signed infinity and `0/0 = NaN`. -/
def jsDiv : JsVal → JsVal → JsVal
  | .nan, _ => .nan
  | _, .nan => .nan
  | .posInf, .posInf => .nan
  | .posInf, .negInf => .nan
  | .negInf, .posInf => .nan
  | .negInf, .negInf => .nan
  | .posInf, .num b => if b < 0 then .negInf else .posInf
  | .negInf, .num b => if b < 0 then .posInf else .negInf
  | .num _, .posInf => .num 0
  | .num _, .negInf => .num 0
  | .num a, .num b =>
      if b = 0 then (if a = 0 then .nan else if a < 0 then .negInf else .posInf)
      else .num (a / b)

/-- IEEE-754 multiplication; `0 * Infinity = NaN`. -/
def jsMul : JsVal → JsVal → JsVal
  | .nan, _ => .nan
  | _, .nan => .nan
  | .posInf, .posInf => .posInf
  | .posInf, .negInf => .negInf
  | .negInf, .posInf => .negInf
  | .negInf, .negInf => .posInf
  | .posInf, .num b => if b = 0 then .nan else if b < 0 then .negInf else .posInf
  | .negInf, .num b => if b = 0 then .nan else if b < 0 then .posInf else .negInf
  | .num a, .posInf => if a = 0 then .nan else if a < 0 then .negInf else .posInf
  | .num a, .negInf => if a = 0 then .nan else if a < 0 then .posInf else .negInf
  | .num a, .num b => .num (a * b)

/-- One raw exchange bar tuple after `parseFloat`: the numeric entries of a
`klines` row (`kline[0]`, `kline[1]`, ... in the source). -/
structure RawKline where
  openTime : ℚ
  closeTime : ℚ
  openPrice : ℚ
  highPrice : ℚ
  lowPrice : ℚ
  closePrice : ℚ
  volume : ℚ
  quoteVolume : ℚ
deriving DecidableEq

/-- An enriched, completed candle (the `Kline` interface).  The field `open'`
carries a prime because `open` is a Lean keyword. -/
structure Kline where
  openTime : ℚ
  closeTime : ℚ
  open' : ℚ
  high : ℚ
  low : ℚ
  close : ℚ
  volume : ℚ
  quoteVolume : ℚ
  buyVolume : ℚ
  sellVolume : ℚ
  netInflow : ℚ
  priceChangePct : ℚ
deriving DecidableEq

/-- The error taxonomy of the fetch layer: a rejected promise.  The pure
data computations below never produce one; the constructor records the
spec's `InvalidInput` category so that failure claims are statable. -/
inductive ApiError where
  | invalidInput
  | fetchFailed
deriving DecidableEq

/-- The per-bar enrichment inside `getKlinesData`'s `map`: the heuristic
buy/sell split (bullish bar 60/40, bearish 40/60), net inflow and
price-change percent. -/
def enrichKline (r : RawKline) : Kline :=
  let buyVolume := if r.openPrice ≤ r.closePrice then r.volume * 0.6 else r.volume * 0.4
  let sellVolume := if r.openPrice ≤ r.closePrice then r.volume * 0.4 else r.volume * 0.6
  let netInflow := (buyVolume - sellVolume) * r.closePrice
  let priceChangePct := (r.closePrice - r.openPrice) / r.openPrice * 100
  { openTime := r.openTime
    closeTime := r.closeTime
    open' := r.openPrice
    high := r.highPrice
    low := r.lowPrice
    close := r.closePrice
    volume := r.volume
    quoteVolume := r.quoteVolume
    buyVolume := buyVolume
    sellVolume := sellVolume
    netInflow := netInflow
    priceChangePct := priceChangePct }

/-- The bar normalizer (`getKlinesData` in `src/lib/api.ts`) after the fetch
succeeded: `klines.slice(0, -1)` drops the still-forming last candle and each
remaining row is enriched.  The source performs no validation of the rows; the
`Except` result models the function's rejection channel (network failures
only), which the data computation itself never produces. -/
def getKlinesData (raws : List RawKline) : Except ApiError (List Kline) :=
  Except.ok (raws.dropLast.map enrichKline)

/-- The `priceRange` object of an order-book aggregate. -/
structure PriceRange where
  highestBid : JsVal
  lowestAsk : JsVal
  spread : JsVal
  spreadPct : JsVal
deriving DecidableEq

/-- A depth snapshot's aggregate (the `OrderBookStats` interface).  Fields
that stay finite on all inputs are rationals; `pressureRatio` and the
`priceRange` entries can be non-finite in the source and are `JsVal`. -/
structure OrderBookStats where
  totalBidQty : ℚ
  totalAskQty : ℚ
  imbalance : ℚ
  bidPressure : ℚ
  askPressure : ℚ
  pressureRatio : JsVal
  priceRange : PriceRange
deriving DecidableEq

/-- The depth aggregator (`getOrderBookStats` in `src/lib/api.ts`) after the
fetch succeeded, on the parsed `(price, quantity)` levels.  The source's
`(totalBidQty - totalAskQty) / (totalBidQty + totalAskQty) || 0` is the
zero-denominator guard written here as an `if` (for a zero denominator the
numerator is also zero on the quantity domain, so the JavaScript expression
is `NaN || 0 = 0`).  `Math.max` / `Math.min` over a possibly empty price list
and the spread arithmetic keep full JavaScript semantics via `JsVal`.  No
emptiness validation exists in the source. -/
def getOrderBookStats (bids asks : List (ℚ × ℚ)) : Except ApiError OrderBookStats :=
  let totalBidQty := (bids.map (fun l => l.2)).sum
  let totalAskQty := (asks.map (fun l => l.2)).sum
  let imbalance :=
    if totalBidQty + totalAskQty = 0 then 0
    else (totalBidQty - totalAskQty) / (totalBidQty + totalAskQty)
  let bidPressure := (bids.map (fun l => l.1 * l.2)).sum
  let askPressure := (asks.map (fun l => l.1 * l.2)).sum
  let pressureRatio :=
    if 0 < askPressure then JsVal.num (bidPressure / askPressure) else JsVal.posInf
  let highestBid := jsMaxList (bids.map (fun l => l.1))
  let lowestAsk := jsMinList (asks.map (fun l => l.1))
  let spread := jsSub lowestAsk highestBid
  let spreadPct := jsMul (jsDiv spread highestBid) (JsVal.num 100)
  Except.ok
    { totalBidQty := totalBidQty
      totalAskQty := totalAskQty
      imbalance := imbalance
      bidPressure := bidPressure
      askPressure := askPressure
      pressureRatio := pressureRatio
      priceRange :=
        { highestBid := highestBid
          lowestAsk := lowestAsk
          spread := spread
          spreadPct := spreadPct } }

/-- The metrics bundle of the pressure analyzer's result. -/
structure PressureMetrics where
  avgInflowRatio : ℚ
  volumeImbalance : ℚ
  valueImbalance : ℚ
  nearVolumeImbalance : ℚ
  pressureScore : ℚ
deriving DecidableEq

/-- The `FundingPressureAnalysis` record; `metrics` is absent (`none`) on the
degraded early return. -/
structure FundingPressureAnalysis where
  pressureDirection : String
  confidence : ℚ
  imbalance : ℚ
  bidAskRatio : JsVal
  metrics : Option PressureMetrics
deriving DecidableEq

/-- `xs.slice(-m)` for `m > 0`: the last `m` elements (the whole list when it
is shorter than `m`). -/
def lastN (m : Nat) (xs : List α) : List α := xs.drop (xs.length - m)

/-- The primary pressure analyzer (`analyzeFundingPressure` in the
regression-based module).  Mirrors the source: the degraded sentinel on an
empty bar list; otherwise the mean inflow/volume ratio over the last 10 bars,
the order-book imbalances, the weighted `pressureScore`, the direction and
strength classification, and the reversal override computed from the mean
price change of the last 5 bars.  The zero-denominator of `valueImbalance`
(both book pressures zero) follows Lean's `x / 0 = 0` convention. -/
def analyzeFundingPressure (klinesData : List Kline) (orderbookStats : OrderBookStats) :
    FundingPressureAnalysis :=
  if klinesData.length = 0 then
    { pressureDirection := "unknown"
      confidence := 0
      imbalance := 0
      bidAskRatio := JsVal.num 0
      metrics := none }
  else
    let recentInflows := (lastN 10 klinesData).map (fun k => k.netInflow)
    let recentVolumes := (lastN 10 klinesData).map (fun k => k.quoteVolume)
    let inflowRatios :=
      List.zipWith (fun inflow vol => if 0 < vol then inflow / vol else 0)
        recentInflows recentVolumes
    let avgInflowRatio := inflowRatios.sum / inflowRatios.length
    let volumeImbalance := orderbookStats.imbalance
    let valueImbalance :=
      orderbookStats.bidPressure /
        (orderbookStats.bidPressure + orderbookStats.askPressure) - 0.5
    let nearVolumeImbalance := volumeImbalance
    let pressureScore :=
      avgInflowRatio * 0.4 + volumeImbalance * 0.2 + valueImbalance * 0.2 +
        nearVolumeImbalance * 0.2
    let strength :=
      if 0.1 < pressureScore then min (pressureScore * 5) 1
      else if pressureScore < -0.1 then min (|pressureScore| * 5) 1
      else |pressureScore| * 5
    let baseDirection :=
      if 0.1 < pressureScore then
        (if 0.7 < strength then "upward_strong" else "upward")
      else if pressureScore < -0.1 then
        (if 0.7 < strength then "downward_strong" else "downward")
      else "neutral"
    let recentPriceChanges := (lastN 5 klinesData).map (fun k => k.priceChangePct)
    let avgPriceChange := recentPriceChanges.sum / recentPriceChanges.length
    let direction :=
      if avgPriceChange < -1 ∧ 0.1 < volumeImbalance then "potential_reversal_up"
      else if 1 < avgPriceChange ∧ volumeImbalance < -0.1 then "potential_reversal_down"
      else baseDirection
    { pressureDirection := direction
      confidence := strength
      imbalance := volumeImbalance
      bidAskRatio := orderbookStats.pressureRatio
      metrics := some
        { avgInflowRatio := avgInflowRatio
          volumeImbalance := volumeImbalance
          valueImbalance := valueImbalance
          nearVolumeImbalance := nearVolumeImbalance
          pressureScore := pressureScore } }

open scoped Classical

noncomputable section

/-- Mean of a list of numbers (`xs.reduce((s, v) => s + v, 0) / n`). -/
def listMean (xs : List ℝ) : ℝ := xs.sum / xs.length

/-- The accumulated `xDiff * xDiff` sum of the statistics helpers: the sum of
squared deviations from the mean (population variance times `n`). -/
def centeredSumSq (xs : List ℝ) : ℝ :=
  (xs.map (fun v => (v - listMean xs) ^ 2)).sum

/-- The accumulated `xDiff * yDiff` sum: the covariance numerator. -/
def centeredSumProd (xs ys : List ℝ) : ℝ :=
  (List.zipWith (fun a b => (a - listMean xs) * (b - listMean ys)) xs ys).sum

/-- `correlationCoefficient` from the regression-based module: zero when the
lengths differ or are zero, zero when `Math.sqrt(xDenominator * yDenominator)`
is zero, otherwise the Pearson quotient. -/
def correlationCoefficient (x y : List ℝ) : ℝ :=
  if x.length ≠ y.length ∨ x.length = 0 then 0
  else if Real.sqrt (centeredSumSq x * centeredSumSq y) = 0 then 0
  else centeredSumProd x y / Real.sqrt (centeredSumSq x * centeredSumSq y)

/-- `standardDeviation`: the population standard deviation (`np.std`). -/
def standardDeviation (values : List ℝ) : ℝ :=
  if values.length = 0 then 0
  else Real.sqrt (((values.map (fun v => (v - listMean values) ^ 2)).sum) / values.length)

/-- The result record of `linearRegression` (`stats.linregress` analogue);
`pValue` and `stdErr` are hard-coded zero in the source. -/
structure LinRegResult where
  slope : ℝ
  intercept : ℝ
  rValue : ℝ
  pValue : ℝ
  stdErr : ℝ

/-- `linearRegression`: ordinary least squares of `y` against `x`, with the
source's zero guards on `xxSum` and on `Math.sqrt(xxSum * yySum)`. -/
def linearRegression (x y : List ℝ) : LinRegResult :=
  if x.length ≠ y.length ∨ x.length = 0 then
    { slope := 0, intercept := 0, rValue := 0, pValue := 0, stdErr := 0 }
  else
    let xMean := listMean x
    let xxSum := centeredSumSq x
    let yySum := centeredSumSq y
    let xySum := centeredSumProd x y
    let slope := if xxSum = 0 then 0 else xySum / xxSum
    let intercept := listMean y - slope * xMean
    let rValue :=
      if Real.sqrt (xxSum * yySum) = 0 then 0 else xySum / Real.sqrt (xxSum * yySum)
    { slope := slope, intercept := intercept, rValue := rValue, pValue := 0, stdErr := 0 }

end

/-- Consecutive deltas `x[i] - x[i-1]` (the `priceChanges` / `inflowChanges`
loops). -/
def diffs (xs : List ℚ) : List ℚ := List.zipWith (fun prev next => next - prev) xs xs.tail

/-- Fraction of positive consecutive deltas
(`changes.filter(c => c > 0).length / changes.length`).  The classifier only
evaluates this on windows of at least 10 bars, so the denominator is never
zero there. -/
def risingFraction (xs : List ℚ) : ℚ :=
  (((diffs xs).filter (fun c => 0 < c)).length : ℚ) / ((diffs xs).length : ℚ)

/-- The classifier's `priceTrend` metric of a bar window. -/
def priceTrendOf (ks : List Kline) : ℚ := risingFraction (ks.map (fun k => k.close))

/-- The classifier's `inflowTrend` metric of a bar window. -/
def inflowTrendOf (ks : List Kline) : ℚ := risingFraction (ks.map (fun k => k.netInflow))

/-- The classifier's `volumeTrend` metric (computed by the source but not
used in its output record). -/
def volumeTrendOf (ks : List Kline) : ℚ := risingFraction (ks.map (fun k => k.quoteVolume))

noncomputable section

/-- The classifier's `correlation` metric: Pearson correlation of the close
prices against the net inflows. -/
def correlationOf (ks : List Kline) : ℝ :=
  correlationCoefficient (ks.map (fun k => (k.close : ℝ)))
    (ks.map (fun k => (k.netInflow : ℝ)))

/-- The classifier's `priceVolatility` metric: the population standard
deviation of the consecutive close deltas divided by the mean close price,
zero when the window is empty or the mean's magnitude is not positive. -/
def priceVolatilityOf (ks : List Kline) : ℝ :=
  let prices : List ℚ := ks.map (fun k => k.close)
  if 0 < prices.length ∧ 0 < |prices.sum / (prices.length : ℚ)| then
    standardDeviation ((diffs prices).map (fun q => (q : ℝ))) /
      ((prices.sum / (prices.length : ℚ) : ℚ) : ℝ)
  else 0

/-- The metrics bundle of the trend classifier's result. -/
structure TrendMetrics where
  priceTrend : ℚ
  priceTrendDirection : String
  priceTrendStrength : ℝ
  priceTrendPValue : ℝ
  inflowTrend : ℚ
  inflowTrendDirection : String
  inflowTrendStrength : ℝ
  inflowTrendPValue : ℝ
  correlation : ℝ
  inflowVolumeCorrelation : ℝ
  priceVolatility : ℝ
  recentInflowTrend : ℚ

/-- The `FundingTrendAnalysis` record; `metrics` is absent (`none`) on the
insufficient-data early return.  The 1-3 diagnostic `reasons` strings are
`toFixed`-formatted presentation text and are not modelled. -/
structure FundingTrendAnalysis where
  trend : String
  confidence : ℝ
  netInflowTotal : ℚ
  netInflowRecent : ℚ
  priceStage : String
  metrics : Option TrendMetrics

/-- The primary (regression-based) trend classifier
(`analyzeFundingFlowTrend`).  Mirrors the source step by step: the
insufficient-data sentinel below 10 bars; the inflow totals; the rising
fractions; the two Pearson correlations; the volatility; the two ordinary
least-squares regressions against the bar index; the recent-inflow fraction;
the nested stage conditionals evaluated in source order with their confidence
formulas; and the final trend enum from the inflow regression. -/
def analyzeFundingFlowTrend (klinesData : List Kline) : FundingTrendAnalysis :=
  if klinesData.length < 10 then
    { trend := "unknown"
      confidence := 0
      netInflowTotal := 0
      netInflowRecent := 0
      priceStage := "数据不足，无法分析"
      metrics := none }
  else
    let prices : List ℚ := klinesData.map (fun k => k.close)
    let netInflows : List ℚ := klinesData.map (fun k => k.netInflow)
    let volumes : List ℚ := klinesData.map (fun k => k.quoteVolume)
    let netInflowTotal : ℚ := netInflows.sum
    let netInflowRecent : ℚ := (lastN 10 netInflows).sum
    let priceTrend := priceTrendOf klinesData
    let inflowTrend := inflowTrendOf klinesData
    let correlation := correlationOf klinesData
    let inflowVolumeCorr :=
      correlationCoefficient (netInflows.map (fun q => (q : ℝ)))
        (volumes.map (fun q => (q : ℝ)))
    let priceVolatility : ℝ := priceVolatilityOf klinesData
    let x := (List.range klinesData.length).map (fun i => (i : ℝ))
    let priceRegression := linearRegression x (prices.map (fun q => (q : ℝ)))
    let priceTrendStrength := |priceRegression.rValue|
    let priceTrendDirection := if 0 < priceRegression.slope then "up" else "down"
    let inflowRegression := linearRegression x (netInflows.map (fun q => (q : ℝ)))
    let inflowTrendStrength := |inflowRegression.rValue|
    let inflowTrendDirection :=
      if 0 < inflowRegression.slope then "increasing" else "decreasing"
    let recentInflows := lastN 10 netInflows
    let recentInflowTrend : ℚ :=
      if 1 < recentInflows.length then
        (((diffs recentInflows).filter (fun c => 0 < c)).length : ℚ) /
          ((recentInflows.length : ℚ) - 1)
      else 0
    let sc : String × ℝ :=
      if 0.7 < priceTrend ∧ inflowTrend < 0.3 ∧ correlation < -0.3 then
        ("顶部", min (0.7 + (priceTrend : ℝ) - (inflowTrend : ℝ) - correlation) 0.95)
      else if priceTrend < 0.3 ∧ 0.7 < inflowTrend ∧ correlation < -0.3 then
        ("底部", min (0.7 - (priceTrend : ℝ) + (inflowTrend : ℝ) - correlation) 0.95)
      else if 0.6 < priceTrend ∧ 0.6 < inflowTrend ∧ 0.3 < correlation then
        ("上涨中", min ((priceTrend : ℝ) + (inflowTrend : ℝ) + correlation - 1) 0.95)
      else if priceTrend < 0.4 ∧ inflowTrend < 0.4 ∧ 0.3 < correlation then
        ("下跌中", min (1 - (priceTrend : ℝ) - (inflowTrend : ℝ) + correlation) 0.95)
      else if |priceTrend - 0.5| < 0.15 ∧ priceVolatility < 0.01 then
        ("整理中", ((0.5 + (0.15 - |priceTrend - 0.5|) * 3 : ℚ) : ℝ))
      else if 0.5 < priceTrend then
        (if 0.5 < inflowTrend then ("上涨中", (((priceTrend + inflowTrend) / 2 : ℚ) : ℝ))
         else ("减弱上涨", ((priceTrend * (1 - inflowTrend) : ℚ) : ℝ)))
      else
        (if inflowTrend < 0.5 then
          ("下跌中", (((1 - priceTrend + (1 - inflowTrend)) / 2 : ℚ) : ℝ))
         else ("减弱下跌", (((1 - priceTrend) * inflowTrend : ℚ) : ℝ)))
    let trend :=
      if inflowTrendDirection = "increasing" ∧ 0.5 < inflowTrendStrength then "increasing"
      else if inflowTrendDirection = "increasing" ∧ 0.3 < inflowTrendStrength then
        "slightly_increasing"
      else if inflowTrendDirection = "decreasing" ∧ 0.5 < inflowTrendStrength then
        "decreasing"
      else if inflowTrendDirection = "decreasing" ∧ 0.3 < inflowTrendStrength then
        "slightly_decreasing"
      else "neutral"
    { trend := trend
      confidence := sc.2
      netInflowTotal := netInflowTotal
      netInflowRecent := netInflowRecent
      priceStage := sc.1
      metrics := some
        { priceTrend := priceTrend
          priceTrendDirection := priceTrendDirection
          priceTrendStrength := priceTrendStrength
          priceTrendPValue := priceRegression.pValue
          inflowTrend := inflowTrend
          inflowTrendDirection := inflowTrendDirection
          inflowTrendStrength := inflowTrendStrength
          inflowTrendPValue := inflowRegression.pValue
          correlation := correlation
          inflowVolumeCorrelation := inflowVolumeCorr
          priceVolatility := priceVolatility
          recentInflowTrend := recentInflowTrend } }

end

/-- The `volume` component of an anomaly record. -/
structure VolumeAnomalyInfo where
  value : ℚ
  zScore : ℝ
  direction : String

/-- The `netInflow` component of an anomaly record. -/
structure NetInflowAnomalyInfo where
  value : ℚ
  zScore : ℝ
  direction : String

/-- The `priceVolumeMismatch` component of an anomaly record. -/
structure PriceVolumeMismatchInfo where
  priceChange : ℚ
  volumeZScore : ℝ

/-- One anomaly record as pushed by the regression-based `detectAnomalies`:
exactly one of the three optional components is present, discriminated by
`type`; the extreme-flow records also carry a flow/volume ratio. -/
structure Anomaly where
  time : ℚ
  volume : Option VolumeAnomalyInfo
  netInflow : Option NetInflowAnomalyInfo
  priceVolumeMismatch : Option PriceVolumeMismatchInfo
  type : String
  inflowRatio : Option ℚ
  outflowRatio : Option ℚ

/-- The anomaly detector's result record. -/
structure AnomalyDetection where
  hasAnomalies : Bool
  anomalies : List Anomaly

/-- The per-bar relative price-change magnitude `|close - open| / open` used
by the detector's statistics (Lean's `x / 0 = 0` stands in for the
division-by-zero of a malformed zero open price, which the detector's
claims never touch). -/
def priceChangeFracOf (k : Kline) : ℚ := |k.close - k.open'| / k.open'

/-- The extreme-net-inflow record the detector pushes for a bar: the fixed
deviation indicator `zScore = 2.0` instead of a computed z-score, and the
zero-guarded inflow/volume ratio. -/
noncomputable def extremeInflowAnomaly (k : Kline) : Anomaly :=
  { time := k.openTime
    volume := none
    netInflow := some { value := k.netInflow, zScore := 2, direction := "high" }
    priceVolumeMismatch := none
    type := "extreme_net_inflow"
    inflowRatio := some (if 0 < k.quoteVolume then k.netInflow / k.quoteVolume else 0)
    outflowRatio := none }

/-- The extreme-net-outflow record: fixed `zScore = -2.0` and the
zero-guarded outflow/volume ratio. -/
noncomputable def extremeOutflowAnomaly (k : Kline) : Anomaly :=
  { time := k.openTime
    volume := none
    netInflow := some { value := k.netInflow, zScore := -2, direction := "low" }
    priceVolumeMismatch := none
    type := "extreme_net_outflow"
    inflowRatio := none
    outflowRatio := some (if 0 < k.quoteVolume then |k.netInflow| / k.quoteVolume else 0) }

noncomputable section

/-- The four independent per-bar checks of the loop body of the
regression-based `detectAnomalies`, in push order, given the window's
volume and price-change statistics.  `volStd || 1` is the `if`-guard on a
zero standard deviation. -/
def barAnomalies (volMean volStd pcMean pcStd : ℝ) (k : Kline) : List Anomaly :=
  let priceChange := priceChangeFracOf k
  (if volMean + 2 * volStd < (k.quoteVolume : ℝ) ∧ (priceChange : ℝ) < pcMean + 0.5 * pcStd
   then
    [{ time := k.openTime
       volume := some
         { value := k.quoteVolume
           zScore := ((k.quoteVolume : ℝ) - volMean) / (if volStd = 0 then 1 else volStd)
           direction := "high" }
       netInflow := none
       priceVolumeMismatch := none
       type := "high_volume_low_price_change"
       inflowRatio := none
       outflowRatio := none }]
   else []) ++
  (if pcMean + 2 * pcStd < (priceChange : ℝ) ∧ (k.quoteVolume : ℝ) < volMean + 0.5 * volStd
   then
    [{ time := k.openTime
       volume := none
       netInflow := none
       priceVolumeMismatch := some
         { priceChange := priceChange * 100
           volumeZScore := ((k.quoteVolume : ℝ) - volMean) / (if volStd = 0 then 1 else volStd) }
       type := "high_price_change_low_volume"
       inflowRatio := none
       outflowRatio := none }]
   else []) ++
  (if 0 < k.netInflow ∧ 0.7 * k.quoteVolume < k.netInflow
   then [extremeInflowAnomaly k] else []) ++
  (if k.netInflow < 0 ∧ 0.7 * k.quoteVolume < |k.netInflow|
   then [extremeOutflowAnomaly k] else [])

/-- The primary (ratio-based) anomaly detector (`detectAnomalies` in the
regression-based module): empty result below 5 bars, otherwise the window's
population statistics of quote volume and relative price change, the four
per-bar checks for every bar in order, and `hasAnomalies` iff any record was
pushed. -/
def detectAnomalies (klinesData : List Kline) : AnomalyDetection :=
  if klinesData.length < 5 then
    { hasAnomalies := false, anomalies := [] }
  else
    let volumes : List ℝ := klinesData.map (fun k => (k.quoteVolume : ℝ))
    let priceChanges : List ℝ := klinesData.map (fun k => (priceChangeFracOf k : ℝ))
    let volMean := listMean volumes
    let volStd := standardDeviation volumes
    let pcMean := listMean priceChanges
    let pcStd := standardDeviation priceChanges
    let anomalies := klinesData.flatMap (barAnomalies volMean volStd pcMean pcStd)
    { hasAnomalies := decide (0 < anomalies.length), anomalies := anomalies }

end

/-- C10: on an empty bar list the pressure analyzer returns the degraded
sentinel — direction `unknown`, confidence 0, imbalance 0 and bid/ask ratio 0,
with no metrics — discarding the provided order-book imbalance and pressure
ratio. -/
theorem analyzeFundingPressure_empty_sentinel (s : OrderBookStats) :
    analyzeFundingPressure [] s =
      { pressureDirection := "unknown"
        confidence := 0
        imbalance := 0
        bidAskRatio := JsVal.num 0
        metrics := none } := rfl

/-- C1, counterexample: with an empty bar list the pressure analyzer returns
imbalance 0 even though the order-book stats passed in carry imbalance 1/2,
so the output imbalance is not always the input imbalance. -/
theorem analyzeFundingPressure_empty_imbalance_cex :
    (analyzeFundingPressure []
        { totalBidQty := 1
          totalAskQty := 1
          imbalance := 1/2
          bidPressure := 1
          askPressure := 1
          pressureRatio := JsVal.num 1
          priceRange :=
            { highestBid := JsVal.num 1
              lowestAsk := JsVal.num 1
              spread := JsVal.num 0
              spreadPct := JsVal.num 0 } }).imbalance = 0 ∧
      (0 : ℚ) ≠ 1/2 :=
  ⟨rfl, by norm_num⟩

/-- C1, amended: for every non-empty bar list the pressure analyzer's output
`imbalance` equals the `imbalance` of the order-book stats passed in,
unmodified; on an empty bar list it is the sentinel 0 instead. -/
theorem analyzeFundingPressure_imbalance_passthrough
    (ks : List Kline) (s : OrderBookStats) (h : ks ≠ []) :
    (analyzeFundingPressure ks s).imbalance = s.imbalance := by
  rw [analyzeFundingPressure, if_neg (by simpa using h)]

/-- C1, witness: the pass-through at a concrete one-bar list and concrete
order-book stats. -/
theorem analyzeFundingPressure_imbalance_passthrough_witness :
    ([⟨0, 1, 1, 1, 1, 1, 1, 1, 1, 1, 0, 0⟩] : List Kline) ≠ [] ∧
      (analyzeFundingPressure [⟨0, 1, 1, 1, 1, 1, 1, 1, 1, 1, 0, 0⟩]
          ⟨1, 1, 1/2, 1, 1, JsVal.num 1,
            ⟨JsVal.num 1, JsVal.num 1, JsVal.num 0, JsVal.num 0⟩⟩).imbalance =
        (⟨1, 1, 1/2, 1, 1, JsVal.num 1,
            ⟨JsVal.num 1, JsVal.num 1, JsVal.num 0, JsVal.num 0⟩⟩ : OrderBookStats).imbalance :=
  ⟨by simp, analyzeFundingPressure_imbalance_passthrough _ _ (by simp)⟩

/-- C2, counterexample: on the empty raw list (length < 1) the bar normalizer
does not fail with `InvalidInput`: it succeeds and returns the empty
sequence. -/
theorem getKlinesData_empty_ok : getKlinesData [] = Except.ok [] := rfl

/-- C2, amended: the bar normalizer performs no input validation and never
fails; on every raw list (also length < 1 or non-positive prices) it succeeds
and returns input length − 1 enriched bars. -/
theorem getKlinesData_never_fails (raws : List RawKline) :
    ∃ ks, getKlinesData raws = Except.ok ks ∧ ks.length = raws.length - 1 :=
  ⟨_, rfl, by simp [getKlinesData]⟩

/-- C3, counterexample: with an empty bid side the depth aggregator does not
fail with `InvalidInput`: it succeeds, with the JavaScript sentinel
`-Infinity` as the best bid. -/
theorem getOrderBookStats_empty_bids_ok :
    ∃ s, getOrderBookStats [] [(101, 2)] = Except.ok s ∧
      s.priceRange.highestBid = JsVal.negInf :=
  ⟨_, rfl, rfl⟩

/-- C3, amended: the depth aggregator performs no emptiness validation and
never fails; an empty bid (ask) side yields best bid `-Infinity` (best ask
`Infinity`) from `Math.max` / `Math.min` of no arguments. -/
theorem getOrderBookStats_never_fails (bids asks : List (ℚ × ℚ)) :
    ∃ s, getOrderBookStats bids asks = Except.ok s ∧
      (bids = [] → s.priceRange.highestBid = JsVal.negInf) ∧
      (asks = [] → s.priceRange.lowestAsk = JsVal.posInf) := by
  refine ⟨_, rfl, fun hb => ?_, fun ha => ?_⟩
  · subst hb; rfl
  · subst ha; rfl

/-- C6: the primary trend classifier on fewer than 10 bars returns the
insufficient-data sentinel: trend `unknown`, confidence 0, zero totals and
the insufficient-data stage label. -/
theorem analyzeFundingFlowTrend_insufficient_data (ks : List Kline)
    (h : ks.length < 10) :
    analyzeFundingFlowTrend ks =
      { trend := "unknown"
        confidence := 0
        netInflowTotal := 0
        netInflowRecent := 0
        priceStage := "数据不足，无法分析"
        metrics := none } := by
  rw [analyzeFundingFlowTrend, if_pos h]

/-- C6, witness: the sentinel at the concrete empty bar list. -/
theorem analyzeFundingFlowTrend_insufficient_data_witness :
    ([] : List Kline).length < 10 ∧
      analyzeFundingFlowTrend [] =
        { trend := "unknown"
          confidence := 0
          netInflowTotal := 0
          netInflowRecent := 0
          priceStage := "数据不足，无法分析"
          metrics := none } :=
  ⟨by norm_num, analyzeFundingFlowTrend_insufficient_data [] (by norm_num)⟩

/-- The per-bar contract of the bar normalizer, as the spec states it: the
60/40 (bullish) or 40/60 (bearish) buy/sell split of the volume, the net
inflow and the price-change percent of the enriched bar produced from a raw
row. -/
def BarSpec (r : RawKline) (b : Kline) : Prop :=
  (r.openPrice ≤ r.closePrice →
    b.buyVolume = 0.6 * r.volume ∧ b.sellVolume = 0.4 * r.volume) ∧
  (r.closePrice < r.openPrice →
    b.buyVolume = 0.4 * r.volume ∧ b.sellVolume = 0.6 * r.volume) ∧
  b.netInflow = (b.buyVolume - b.sellVolume) * r.closePrice ∧
  b.priceChangePct = (r.closePrice - r.openPrice) / r.openPrice * 100

/-- C4: on a raw list of length at least 1 with positive open prices the bar
normalizer drops exactly the last element and enriches each remaining row
in order according to `BarSpec`. -/
theorem getKlinesData_enrichment (raws : List RawKline) (h1 : 1 ≤ raws.length)
    (hp : ∀ r ∈ raws, 0 < r.openPrice) :
    ∃ ks, getKlinesData raws = Except.ok ks ∧ ks.length = raws.length - 1 ∧
      ∀ p ∈ raws.dropLast.zip ks, BarSpec p.1 p.2 := by
  refine ⟨_, rfl, by simp [getKlinesData], ?_⟩
  intro p hp'
  have hz : raws.dropLast.zip (raws.dropLast.map enrichKline) =
      raws.dropLast.map (fun r => (r, enrichKline r)) := by
    simpa using List.zip_map' id enrichKline raws.dropLast
  rw [hz] at hp'
  rcases List.mem_map.1 hp' with ⟨r, hr, rfl⟩
  by_cases hc : r.openPrice ≤ r.closePrice
  · exact ⟨fun _ => by simp [enrichKline, hc, mul_comm],
      fun h' => absurd hc (not_le.2 h'),
      by simp [enrichKline, hc], by simp [enrichKline, hc]⟩
  · exact ⟨fun h' => absurd h' hc,
      fun _ => by simp [enrichKline, hc, mul_comm],
      by simp [enrichKline, hc], by simp [enrichKline, hc]⟩

/-- C4, witness: the enrichment contract at a concrete two-row raw list (one
bullish, one bearish row). -/
theorem getKlinesData_enrichment_witness :
    1 ≤ ([⟨0, 1, 1, 2, 1, 2, 10, 20⟩, ⟨1, 2, 2, 3, 2, 1, 5, 10⟩] : List RawKline).length ∧
      (∀ r ∈ ([⟨0, 1, 1, 2, 1, 2, 10, 20⟩, ⟨1, 2, 2, 3, 2, 1, 5, 10⟩] : List RawKline),
        0 < r.openPrice) ∧
      ∃ ks, getKlinesData [⟨0, 1, 1, 2, 1, 2, 10, 20⟩, ⟨1, 2, 2, 3, 2, 1, 5, 10⟩] =
          Except.ok ks ∧
        ks.length =
          ([⟨0, 1, 1, 2, 1, 2, 10, 20⟩, ⟨1, 2, 2, 3, 2, 1, 5, 10⟩] : List RawKline).length - 1 ∧
        ∀ p ∈ ([⟨0, 1, 1, 2, 1, 2, 10, 20⟩,
            ⟨1, 2, 2, 3, 2, 1, 5, 10⟩] : List RawKline).dropLast.zip ks,
          BarSpec p.1 p.2 :=
  ⟨by norm_num, by norm_num, getKlinesData_enrichment _ (by norm_num) (by norm_num)⟩

/-- C7, counterexample: with non-negative quantities but a negative ask
price the ask pressure is negative, and the source returns the `Infinity`
sentinel rather than the quotient `bidPressure / askPressure` the claim
states for every nonzero ask pressure. -/
theorem getOrderBookStats_negative_price_cex :
    ∃ s, getOrderBookStats [(1, 1)] [(-1, 1)] = Except.ok s ∧
      s.askPressure ≠ 0 ∧ s.pressureRatio = JsVal.posInf ∧
      s.pressureRatio ≠ JsVal.num (s.bidPressure / s.askPressure) := by
  refine ⟨_, rfl, ?_, ?_, ?_⟩
  · show (List.map (fun l => l.1 * l.2) [((-1 : ℚ), (1 : ℚ))]).sum ≠ 0
    norm_num
  · show (if 0 < (List.map (fun l => l.1 * l.2) [((-1 : ℚ), (1 : ℚ))]).sum then
        JsVal.num ((List.map (fun l => l.1 * l.2) [((1 : ℚ), (1 : ℚ))]).sum /
          (List.map (fun l => l.1 * l.2) [((-1 : ℚ), (1 : ℚ))]).sum)
      else JsVal.posInf) = JsVal.posInf
    rw [if_neg]
    norm_num
  · show (if 0 < (List.map (fun l => l.1 * l.2) [((-1 : ℚ), (1 : ℚ))]).sum then
        JsVal.num ((List.map (fun l => l.1 * l.2) [((1 : ℚ), (1 : ℚ))]).sum /
          (List.map (fun l => l.1 * l.2) [((-1 : ℚ), (1 : ℚ))]).sum)
      else JsVal.posInf) ≠ JsVal.num
        ((List.map (fun l => l.1 * l.2) [((1 : ℚ), (1 : ℚ))]).sum /
          (List.map (fun l => l.1 * l.2) [((-1 : ℚ), (1 : ℚ))]).sum)
    rw [if_neg]
    · simp
    · norm_num

/-- C7, amended: for non-empty sides whose levels have non-negative prices
and quantities, imbalance is the zero-guarded quantity quotient, and the
pressure ratio is `bidPressure / askPressure`, with the (non-clamped)
`Infinity` sentinel exactly when the ask pressure is zero. -/
theorem getOrderBookStats_imbalance_pressure (bids asks : List (ℚ × ℚ))
    (hb : bids ≠ []) (ha : asks ≠ [])
    (h : ∀ l ∈ bids ++ asks, 0 ≤ l.1 ∧ 0 ≤ l.2) :
    ∃ s, getOrderBookStats bids asks = Except.ok s ∧
      s.imbalance = (if s.totalBidQty + s.totalAskQty = 0 then 0
        else (s.totalBidQty - s.totalAskQty) / (s.totalBidQty + s.totalAskQty)) ∧
      (s.askPressure = 0 → s.pressureRatio = JsVal.posInf) ∧
      (s.askPressure ≠ 0 → s.pressureRatio = JsVal.num (s.bidPressure / s.askPressure)) := by
  have hask : 0 ≤ (asks.map (fun l => l.1 * l.2)).sum := by
    refine List.sum_nonneg ?_
    intro x hx
    rcases List.mem_map.1 hx with ⟨l, hl, rfl⟩
    exact mul_nonneg (h l (List.mem_append_right _ hl)).1 (h l (List.mem_append_right _ hl)).2
  refine ⟨_, rfl, rfl, fun h0 => ?_, fun h0 => ?_⟩
  · have h0' : (asks.map (fun l => l.1 * l.2)).sum = 0 := h0
    show (if 0 < (asks.map (fun l => l.1 * l.2)).sum then
        JsVal.num ((bids.map (fun l => l.1 * l.2)).sum / (asks.map (fun l => l.1 * l.2)).sum)
      else JsVal.posInf) = JsVal.posInf
    rw [if_neg]
    rw [h0']
    exact lt_irrefl 0
  · have h0' : (asks.map (fun l => l.1 * l.2)).sum ≠ 0 := h0
    show (if 0 < (asks.map (fun l => l.1 * l.2)).sum then
        JsVal.num ((bids.map (fun l => l.1 * l.2)).sum / (asks.map (fun l => l.1 * l.2)).sum)
      else JsVal.posInf) = JsVal.num ((bids.map (fun l => l.1 * l.2)).sum /
        (asks.map (fun l => l.1 * l.2)).sum)
    rw [if_pos (lt_of_le_of_ne hask (Ne.symm h0'))]

/-- C7, witness: the amended contract at the spec's own depth example,
bids `[(100, 2)]` and asks `[(101, 2)]`. -/
theorem getOrderBookStats_imbalance_pressure_witness :
    (([(100, 2)] : List (ℚ × ℚ)) ≠ [] ∧ (([(101, 2)] : List (ℚ × ℚ)) ≠ []) ∧
      (∀ l ∈ ([(100, 2)] : List (ℚ × ℚ)) ++ [(101, 2)], 0 ≤ l.1 ∧ 0 ≤ l.2)) ∧
      ∃ s, getOrderBookStats [(100, 2)] [(101, 2)] = Except.ok s ∧
        s.imbalance = (if s.totalBidQty + s.totalAskQty = 0 then 0
          else (s.totalBidQty - s.totalAskQty) / (s.totalBidQty + s.totalAskQty)) ∧
        (s.askPressure = 0 → s.pressureRatio = JsVal.posInf) ∧
        (s.askPressure ≠ 0 → s.pressureRatio = JsVal.num (s.bidPressure / s.askPressure)) :=
  ⟨⟨by simp, by simp, by norm_num⟩,
    getOrderBookStats_imbalance_pressure _ _ (by simp) (by simp) (by norm_num)⟩

/-- A sum of squared list entries is non-negative. -/
theorem list_sum_sq_nonneg (l : List ℝ) : 0 ≤ (l.map (fun v => v ^ 2)).sum := by
  refine List.sum_nonneg ?_
  intro x hx
  rcases List.mem_map.1 hx with ⟨v, _, rfl⟩
  exact sq_nonneg v

/-- Cauchy-Schwarz inequality for lists: the squared sum of pairwise products
is at most the product of the sums of squares. -/
theorem list_inner_sq_le :
    ∀ (a b : List ℝ),
      ((List.zipWith (fun u v => u * v) a b).sum) ^ 2 ≤
        (a.map (fun v => v ^ 2)).sum * (b.map (fun v => v ^ 2)).sum := by
  intro a
  induction a with
  | nil => intro b; simp
  | cons x xs ih =>
    intro b
    cases b with
    | nil => simp
    | cons y ys =>
      have hA := list_sum_sq_nonneg xs
      have hB := list_sum_sq_nonneg ys
      have hS := ih ys
      simp only [List.zipWith_cons_cons, List.map_cons, List.sum_cons]
      set S := (List.zipWith (fun u v => u * v) xs ys).sum with hSdef
      set A := (xs.map (fun v => v ^ 2)).sum with hAdef
      set B := (ys.map (fun v => v ^ 2)).sum with hBdef
      rcases eq_or_lt_of_le hB with hB0 | hBpos
      · have hS0 : S = 0 := by
          have h1 : S ^ 2 ≤ 0 := by
            calc S ^ 2 ≤ A * B := hS
            _ = 0 := by rw [← hB0, mul_zero]
          exact sq_eq_zero_iff.1 (le_antisymm h1 (sq_nonneg S))
        rw [hS0, ← hB0]
        nlinarith [mul_nonneg hA (sq_nonneg y), sq_nonneg (x * y)]
      · nlinarith [sq_nonneg (x * B - y * S),
          mul_nonneg (add_nonneg (sq_nonneg y) (le_of_lt hBpos)) (sub_nonneg.2 hS),
          hBpos]

/-- The covariance accumulator is symmetric in its two series. -/
theorem centeredSumProd_comm (x y : List ℝ) :
    centeredSumProd x y = centeredSumProd y x := by
  have hfun : (fun b a => (a - listMean x) * (b - listMean y)) =
      fun a b => (a - listMean y) * (b - listMean x) := by
    funext a b
    ring
  rw [centeredSumProd, centeredSumProd, List.zipWith_comm, hfun]

/-- The centered sum of squares is non-negative. -/
theorem centeredSumSq_nonneg (x : List ℝ) : 0 ≤ centeredSumSq x := by
  rw [centeredSumSq]
  refine List.sum_nonneg ?_
  intro v hv
  rcases List.mem_map.1 hv with ⟨u, _, rfl⟩
  exact sq_nonneg _

/-- The covariance accumulator squared is bounded by the product of the
centered sums of squares (Cauchy-Schwarz instantiated to the centered
series). -/
theorem centeredSumProd_sq_le (x y : List ℝ) :
    (centeredSumProd x y) ^ 2 ≤ centeredSumSq x * centeredSumSq y := by
  have h1 : centeredSumProd x y =
      (List.zipWith (fun u v => u * v) (x.map (fun v => v - listMean x))
        (y.map (fun v => v - listMean y))).sum := by
    rw [centeredSumProd, List.zipWith_map]
  have h2 : centeredSumSq x =
      ((x.map (fun v => v - listMean x)).map (fun v => v ^ 2)).sum := by
    rw [centeredSumSq, List.map_map]
    rfl
  have h3 : centeredSumSq y =
      ((y.map (fun v => v - listMean y)).map (fun v => v ^ 2)).sum := by
    rw [centeredSumSq, List.map_map]
    rfl
  rw [h1, h2, h3]
  exact list_inner_sq_le _ _

/-- C8: the source's Pearson `correlationCoefficient` is symmetric, bounded
in magnitude by 1 on every pair of series, and returns exactly 0 when the
lengths differ, the lengths are 0, or either series has a zero centered sum
of squares (zero variance). -/
theorem correlationCoefficient_symm_bounded_zero :
    (∀ x y : List ℝ, correlationCoefficient x y = correlationCoefficient y x) ∧
    (∀ x y : List ℝ, |correlationCoefficient x y| ≤ 1) ∧
    (∀ x y : List ℝ,
      (x.length ≠ y.length ∨ x.length = 0 ∨ centeredSumSq x = 0 ∨ centeredSumSq y = 0) →
      correlationCoefficient x y = 0) := by
  refine ⟨?_, ?_, ?_⟩
  · intro x y
    rw [correlationCoefficient, correlationCoefficient,
      mul_comm (centeredSumSq y) (centeredSumSq x), ← centeredSumProd_comm x y]
    split_ifs <;> first | rfl | omega
  · intro x y
    rw [correlationCoefficient]
    by_cases h1 : x.length ≠ y.length ∨ x.length = 0
    · rw [if_pos h1]; norm_num
    · rw [if_neg h1]
      by_cases h2 : Real.sqrt (centeredSumSq x * centeredSumSq y) = 0
      · rw [if_pos h2]; norm_num
      · rw [if_neg h2]
        have hAB : 0 ≤ centeredSumSq x * centeredSumSq y :=
          mul_nonneg (centeredSumSq_nonneg x) (centeredSumSq_nonneg y)
        have hspos : 0 < Real.sqrt (centeredSumSq x * centeredSumSq y) :=
          lt_of_le_of_ne (Real.sqrt_nonneg _) (Ne.symm h2)
        have hnum : |centeredSumProd x y| ≤ Real.sqrt (centeredSumSq x * centeredSumSq y) := by
          have hsq : (centeredSumProd x y) ^ 2 ≤
              (Real.sqrt (centeredSumSq x * centeredSumSq y)) ^ 2 := by
            rw [Real.sq_sqrt hAB]
            exact centeredSumProd_sq_le x y
          calc |centeredSumProd x y| = Real.sqrt ((centeredSumProd x y) ^ 2) :=
                (Real.sqrt_sq_eq_abs _).symm
          _ ≤ Real.sqrt ((Real.sqrt (centeredSumSq x * centeredSumSq y)) ^ 2) :=
                Real.sqrt_le_sqrt hsq
          _ = |Real.sqrt (centeredSumSq x * centeredSumSq y)| := Real.sqrt_sq_eq_abs _
          _ = Real.sqrt (centeredSumSq x * centeredSumSq y) := abs_of_nonneg (Real.sqrt_nonneg _)
        rw [abs_div, abs_of_nonneg (Real.sqrt_nonneg _)]
        exact div_le_one_of_le₀ hnum (Real.sqrt_nonneg _)
  · intro x y hd
    rw [correlationCoefficient]
    by_cases h1 : x.length ≠ y.length ∨ x.length = 0
    · rw [if_pos h1]
    · rw [if_neg h1]
      rcases hd with hd | hd | hd | hd
      · exact absurd (Or.inl hd) h1
      · exact absurd (Or.inr hd) h1
      · rw [if_pos (by rw [hd, zero_mul, Real.sqrt_zero])]
      · rw [if_pos (by rw [hd, mul_zero, Real.sqrt_zero])]

/-- C5: on a window of at least 10 bars the six stage branches are evaluated
in the fixed priority order Top, Bottom, Uptrend, Downtrend, Consolidation,
Fallback with the first match winning: each branch's stage and confidence
are taken whenever its predicate holds and all earlier predicates fail,
regardless of any later predicate (in particular Uptrend and Downtrend beat
an overlapping Consolidation match); the first conjunct is the Top instance,
whose predicate needs no exclusions, with
confidence `min(0.7 + priceTrend - inflowTrend - correlation, 0.95)`. -/
theorem analyzeFundingFlowTrend_stage_priority (ks : List Kline)
    (h10 : 10 ≤ ks.length) :
    ((0.7 < priceTrendOf ks ∧ inflowTrendOf ks < 0.3 ∧ correlationOf ks < -0.3) →
      (analyzeFundingFlowTrend ks).priceStage = "顶部" ∧
      (analyzeFundingFlowTrend ks).confidence =
        min (0.7 + (priceTrendOf ks : ℝ) - (inflowTrendOf ks : ℝ) - correlationOf ks) 0.95) ∧
    (¬(0.7 < priceTrendOf ks ∧ inflowTrendOf ks < 0.3 ∧ correlationOf ks < -0.3) →
      (priceTrendOf ks < 0.3 ∧ 0.7 < inflowTrendOf ks ∧ correlationOf ks < -0.3) →
      (analyzeFundingFlowTrend ks).priceStage = "底部" ∧
      (analyzeFundingFlowTrend ks).confidence =
        min (0.7 - (priceTrendOf ks : ℝ) + (inflowTrendOf ks : ℝ) - correlationOf ks) 0.95) ∧
    (¬(0.7 < priceTrendOf ks ∧ inflowTrendOf ks < 0.3 ∧ correlationOf ks < -0.3) →
      ¬(priceTrendOf ks < 0.3 ∧ 0.7 < inflowTrendOf ks ∧ correlationOf ks < -0.3) →
      (0.6 < priceTrendOf ks ∧ 0.6 < inflowTrendOf ks ∧ 0.3 < correlationOf ks) →
      (analyzeFundingFlowTrend ks).priceStage = "上涨中" ∧
      (analyzeFundingFlowTrend ks).confidence =
        min ((priceTrendOf ks : ℝ) + (inflowTrendOf ks : ℝ) + correlationOf ks - 1) 0.95) ∧
    (¬(0.7 < priceTrendOf ks ∧ inflowTrendOf ks < 0.3 ∧ correlationOf ks < -0.3) →
      ¬(priceTrendOf ks < 0.3 ∧ 0.7 < inflowTrendOf ks ∧ correlationOf ks < -0.3) →
      ¬(0.6 < priceTrendOf ks ∧ 0.6 < inflowTrendOf ks ∧ 0.3 < correlationOf ks) →
      (priceTrendOf ks < 0.4 ∧ inflowTrendOf ks < 0.4 ∧ 0.3 < correlationOf ks) →
      (analyzeFundingFlowTrend ks).priceStage = "下跌中" ∧
      (analyzeFundingFlowTrend ks).confidence =
        min (1 - (priceTrendOf ks : ℝ) - (inflowTrendOf ks : ℝ) + correlationOf ks) 0.95) ∧
    (¬(0.7 < priceTrendOf ks ∧ inflowTrendOf ks < 0.3 ∧ correlationOf ks < -0.3) →
      ¬(priceTrendOf ks < 0.3 ∧ 0.7 < inflowTrendOf ks ∧ correlationOf ks < -0.3) →
      ¬(0.6 < priceTrendOf ks ∧ 0.6 < inflowTrendOf ks ∧ 0.3 < correlationOf ks) →
      ¬(priceTrendOf ks < 0.4 ∧ inflowTrendOf ks < 0.4 ∧ 0.3 < correlationOf ks) →
      (|priceTrendOf ks - 0.5| < 0.15 ∧ priceVolatilityOf ks < 0.01) →
      (analyzeFundingFlowTrend ks).priceStage = "整理中" ∧
      (analyzeFundingFlowTrend ks).confidence =
        ((0.5 + (0.15 - |priceTrendOf ks - 0.5|) * 3 : ℚ) : ℝ)) ∧
    (¬(0.7 < priceTrendOf ks ∧ inflowTrendOf ks < 0.3 ∧ correlationOf ks < -0.3) →
      ¬(priceTrendOf ks < 0.3 ∧ 0.7 < inflowTrendOf ks ∧ correlationOf ks < -0.3) →
      ¬(0.6 < priceTrendOf ks ∧ 0.6 < inflowTrendOf ks ∧ 0.3 < correlationOf ks) →
      ¬(priceTrendOf ks < 0.4 ∧ inflowTrendOf ks < 0.4 ∧ 0.3 < correlationOf ks) →
      ¬(|priceTrendOf ks - 0.5| < 0.15 ∧ priceVolatilityOf ks < 0.01) →
      ((0.5 < priceTrendOf ks → 0.5 < inflowTrendOf ks →
        (analyzeFundingFlowTrend ks).priceStage = "上涨中" ∧
        (analyzeFundingFlowTrend ks).confidence =
          (((priceTrendOf ks + inflowTrendOf ks) / 2 : ℚ) : ℝ)) ∧
       (0.5 < priceTrendOf ks → ¬(0.5 < inflowTrendOf ks) →
        (analyzeFundingFlowTrend ks).priceStage = "减弱上涨" ∧
        (analyzeFundingFlowTrend ks).confidence =
          ((priceTrendOf ks * (1 - inflowTrendOf ks) : ℚ) : ℝ)) ∧
       (¬(0.5 < priceTrendOf ks) → inflowTrendOf ks < 0.5 →
        (analyzeFundingFlowTrend ks).priceStage = "下跌中" ∧
        (analyzeFundingFlowTrend ks).confidence =
          (((1 - priceTrendOf ks + (1 - inflowTrendOf ks)) / 2 : ℚ) : ℝ)) ∧
       (¬(0.5 < priceTrendOf ks) → ¬(inflowTrendOf ks < 0.5) →
        (analyzeFundingFlowTrend ks).priceStage = "减弱下跌" ∧
        (analyzeFundingFlowTrend ks).confidence =
          (((1 - priceTrendOf ks) * inflowTrendOf ks : ℚ) : ℝ)))) := by
  have hns : ¬ ks.length < 10 := by omega
  refine ⟨fun h1 => ?_, fun n1 h2 => ?_, fun n1 n2 h3 => ?_, fun n1 n2 n3 h4 => ?_,
    fun n1 n2 n3 n4 h5 => ?_, fun n1 n2 n3 n4 n5 => ?_⟩
  · constructor <;> (simp only [analyzeFundingFlowTrend, if_neg hns]; rw [if_pos h1])
  · constructor <;>
      (simp only [analyzeFundingFlowTrend, if_neg hns]; rw [if_neg n1, if_pos h2])
  · constructor <;>
      (simp only [analyzeFundingFlowTrend, if_neg hns];
        rw [if_neg n1, if_neg n2, if_pos h3])
  · constructor <;>
      (simp only [analyzeFundingFlowTrend, if_neg hns];
        rw [if_neg n1, if_neg n2, if_neg n3, if_pos h4])
  · constructor <;>
      (simp only [analyzeFundingFlowTrend, if_neg hns];
        rw [if_neg n1, if_neg n2, if_neg n3, if_neg n4, if_pos h5])
  · refine ⟨fun hp hi => ?_, fun hp hi => ?_, fun hp hi => ?_, fun hp hi => ?_⟩
    · constructor <;>
        (simp only [analyzeFundingFlowTrend, if_neg hns];
          rw [if_neg n1, if_neg n2, if_neg n3, if_neg n4, if_neg n5, if_pos hp, if_pos hi])
    · constructor <;>
        (simp only [analyzeFundingFlowTrend, if_neg hns];
          rw [if_neg n1, if_neg n2, if_neg n3, if_neg n4, if_neg n5, if_pos hp, if_neg hi])
    · constructor <;>
        (simp only [analyzeFundingFlowTrend, if_neg hns];
          rw [if_neg n1, if_neg n2, if_neg n3, if_neg n4, if_neg n5, if_neg hp, if_pos hi])
    · constructor <;>
        (simp only [analyzeFundingFlowTrend, if_neg hns];
          rw [if_neg n1, if_neg n2, if_neg n3, if_neg n4, if_neg n5, if_neg hp, if_neg hi])

/-- Ten concrete bars with strictly rising closes 1..10 and strictly falling
net inflows 10..1: priceTrend 1, inflowTrend 0, correlation -1. -/
def topBars : List Kline :=
  [⟨0, 0, 1, 1, 1, 1, 1, 1, 1, 1, 10, 0⟩,
   ⟨1, 1, 1, 1, 1, 2, 1, 1, 1, 1, 9, 0⟩,
   ⟨2, 2, 1, 1, 1, 3, 1, 1, 1, 1, 8, 0⟩,
   ⟨3, 3, 1, 1, 1, 4, 1, 1, 1, 1, 7, 0⟩,
   ⟨4, 4, 1, 1, 1, 5, 1, 1, 1, 1, 6, 0⟩,
   ⟨5, 5, 1, 1, 1, 6, 1, 1, 1, 1, 5, 0⟩,
   ⟨6, 6, 1, 1, 1, 7, 1, 1, 1, 1, 4, 0⟩,
   ⟨7, 7, 1, 1, 1, 8, 1, 1, 1, 1, 3, 0⟩,
   ⟨8, 8, 1, 1, 1, 9, 1, 1, 1, 1, 2, 0⟩,
   ⟨9, 9, 1, 1, 1, 10, 1, 1, 1, 1, 1, 0⟩]

/-- C5, witness: the first conjunct of the priority theorem — the Top
classification — at the concrete ten-bar window `topBars`. -/
theorem analyzeFundingFlowTrend_stage_priority_witness :
    (10 ≤ topBars.length) ∧
    (0.7 < priceTrendOf topBars ∧ inflowTrendOf topBars < 0.3 ∧
      correlationOf topBars < -0.3) ∧
    ((analyzeFundingFlowTrend topBars).priceStage = "顶部" ∧
     (analyzeFundingFlowTrend topBars).confidence =
       min (0.7 + (priceTrendOf topBars : ℝ) - (inflowTrendOf topBars : ℝ) -
         correlationOf topBars) 0.95) := by
  have h1 : 10 ≤ topBars.length := by norm_num [topBars]
  have h2 : 0.7 < priceTrendOf topBars := by
    norm_num [priceTrendOf, risingFraction, diffs, topBars, List.filter]
  have h3 : inflowTrendOf topBars < 0.3 := by
    norm_num [inflowTrendOf, risingFraction, diffs, topBars, List.filter]
  have hx : topBars.map (fun k => (k.close : ℝ)) =
      [1, 2, 3, 4, 5, 6, 7, 8, 9, 10] := by
    norm_num [topBars]
  have hy : topBars.map (fun k => (k.netInflow : ℝ)) =
      [10, 9, 8, 7, 6, 5, 4, 3, 2, 1] := by
    norm_num [topBars]
  have hmx : listMean [(1 : ℝ), 2, 3, 4, 5, 6, 7, 8, 9, 10] = 11/2 := by
    norm_num [listMean]
  have hmy : listMean [(10 : ℝ), 9, 8, 7, 6, 5, 4, 3, 2, 1] = 11/2 := by
    norm_num [listMean]
  have hA : centeredSumSq [(1 : ℝ), 2, 3, 4, 5, 6, 7, 8, 9, 10] = 165/2 := by
    rw [centeredSumSq, hmx]
    norm_num
  have hB : centeredSumSq [(10 : ℝ), 9, 8, 7, 6, 5, 4, 3, 2, 1] = 165/2 := by
    rw [centeredSumSq, hmy]
    norm_num
  have hP : centeredSumProd [(1 : ℝ), 2, 3, 4, 5, 6, 7, 8, 9, 10]
      [(10 : ℝ), 9, 8, 7, 6, 5, 4, 3, 2, 1] = -(165/2) := by
    rw [centeredSumProd, hmx, hmy]
    norm_num
  have hsqrt : Real.sqrt ((165 : ℝ)/2 * (165/2)) = 165/2 :=
    Real.sqrt_mul_self (by norm_num)
  have hcor : correlationOf topBars = -1 := by
    rw [correlationOf, hx, hy, correlationCoefficient]
    rw [if_neg (by norm_num)]
    rw [hA, hB, hP, hsqrt]
    rw [if_neg (by norm_num)]
    norm_num
  have h4 : correlationOf topBars < -0.3 := by
    rw [hcor]
    norm_num
  exact ⟨h1, ⟨h2, h3, h4⟩,
    (analyzeFundingFlowTrend_stage_priority topBars h1).1 ⟨h2, h3, h4⟩⟩

/-- Membership of a bar's extreme-net-inflow record among another bar's
checks: it can only come from the third check, whose guard is the
extreme-inflow condition of the generating bar. -/
theorem inflow_mem_barAnomalies (vm vs pm ps : ℝ) (j k : Kline) :
    extremeInflowAnomaly k ∈ barAnomalies vm vs pm ps j ↔
      extremeInflowAnomaly j = extremeInflowAnomaly k ∧
        0 < j.netInflow ∧ 0.7 * j.quoteVolume < j.netInflow := by
  unfold barAnomalies
  simp only [List.mem_append, List.mem_ite_nil_right, List.mem_singleton]
  constructor
  · rintro (((⟨-, h⟩ | ⟨-, h⟩) | ⟨hc, h⟩) | ⟨-, h⟩)
    · simp [extremeInflowAnomaly] at h
    · simp [extremeInflowAnomaly] at h
    · exact ⟨h.symm, hc.1, hc.2⟩
    · simp [extremeInflowAnomaly, extremeOutflowAnomaly] at h
  · rintro ⟨heq, h1, h2⟩
    exact Or.inl (Or.inr ⟨⟨h1, h2⟩, heq.symm⟩)

/-- Membership of a bar's extreme-net-outflow record among another bar's
checks: it can only come from the fourth check. -/
theorem outflow_mem_barAnomalies (vm vs pm ps : ℝ) (j k : Kline) :
    extremeOutflowAnomaly k ∈ barAnomalies vm vs pm ps j ↔
      extremeOutflowAnomaly j = extremeOutflowAnomaly k ∧
        j.netInflow < 0 ∧ 0.7 * j.quoteVolume < |j.netInflow| := by
  unfold barAnomalies
  simp only [List.mem_append, List.mem_ite_nil_right, List.mem_singleton]
  constructor
  · rintro (((⟨-, h⟩ | ⟨-, h⟩) | ⟨-, h⟩) | ⟨hc, h⟩)
    · simp [extremeOutflowAnomaly] at h
    · simp [extremeOutflowAnomaly] at h
    · simp [extremeInflowAnomaly, extremeOutflowAnomaly] at h
    · exact ⟨h.symm, hc.1, hc.2⟩
  · rintro ⟨heq, h1, h2⟩
    exact Or.inr ⟨⟨h1, h2⟩, heq.symm⟩

/-- Every record pushed for a bar is one of the four check shapes. -/
theorem barAnomalies_cases (vm vs pm ps : ℝ) (j : Kline) (a : Anomaly)
    (h : a ∈ barAnomalies vm vs pm ps j) :
    a.type = "high_volume_low_price_change" ∨
    a.type = "high_price_change_low_volume" ∨
    a = extremeInflowAnomaly j ∨ a = extremeOutflowAnomaly j := by
  unfold barAnomalies at h
  simp only [List.mem_append, List.mem_ite_nil_right, List.mem_singleton] at h
  rcases h with (((⟨-, h⟩ | ⟨-, h⟩) | ⟨-, h⟩) | ⟨-, h⟩)
  · left; rw [h]
  · right; left; rw [h]
  · right; right; left; exact h
  · right; right; right; exact h

/-- C9: on a window of at least 5 bars the primary anomaly detector emits a
bar's extreme-net-inflow record exactly when `netInflow > 0` and
`netInflow > 0.7 * quoteVolume` (and the extreme-net-outflow record exactly
when `netInflow < 0` and `|netInflow| > 0.7 * quoteVolume`), and every
emitted extreme-flow record carries the fixed deviation `zScore = 2`
(respectively `-2`) instead of a computed z-score. -/
theorem detectAnomalies_extreme_net_flow (ks : List Kline) (h5 : 5 ≤ ks.length)
    (k : Kline) (hk : k ∈ ks) :
    (extremeInflowAnomaly k ∈ (detectAnomalies ks).anomalies ↔
      0 < k.netInflow ∧ 0.7 * k.quoteVolume < k.netInflow) ∧
    (extremeOutflowAnomaly k ∈ (detectAnomalies ks).anomalies ↔
      k.netInflow < 0 ∧ 0.7 * k.quoteVolume < |k.netInflow|) ∧
    (∀ a ∈ (detectAnomalies ks).anomalies, a.type = "extreme_net_inflow" →
      ∃ v, a.netInflow = some v ∧ v.zScore = 2) ∧
    (∀ a ∈ (detectAnomalies ks).anomalies, a.type = "extreme_net_outflow" →
      ∃ v, a.netInflow = some v ∧ v.zScore = -2) := by
  have hns : ¬ ks.length < 5 := by omega
  have hlist : (detectAnomalies ks).anomalies =
      ks.flatMap (barAnomalies
        (listMean (ks.map (fun b => (b.quoteVolume : ℝ))))
        (standardDeviation (ks.map (fun b => (b.quoteVolume : ℝ))))
        (listMean (ks.map (fun b => (priceChangeFracOf b : ℝ))))
        (standardDeviation (ks.map (fun b => (priceChangeFracOf b : ℝ))))) := by
    simp only [detectAnomalies, if_neg hns]
  refine ⟨?_, ?_, ?_, ?_⟩
  · rw [hlist, List.mem_flatMap]
    constructor
    · rintro ⟨j, hj, hmem⟩
      rw [inflow_mem_barAnomalies] at hmem
      obtain ⟨heq, hjpos, hjgt⟩ := hmem
      have hn : j.netInflow = k.netInflow := by
        have h' := congrArg Anomaly.netInflow heq
        simp only [extremeInflowAnomaly, Option.some.injEq,
          NetInflowAnomalyInfo.mk.injEq] at h'
        exact h'.1
      have hr : (if 0 < j.quoteVolume then j.netInflow / j.quoteVolume else 0) =
          (if 0 < k.quoteVolume then k.netInflow / k.quoteVolume else 0) := by
        have h' := congrArg Anomaly.inflowRatio heq
        simp only [extremeInflowAnomaly, Option.some.injEq] at h'
        exact h'
      refine ⟨hn ▸ hjpos, ?_⟩
      by_cases hqk : 0 < k.quoteVolume
      · rw [if_pos hqk] at hr
        by_cases hqj : 0 < j.quoteVolume
        · rw [if_pos hqj] at hr
          rw [hn] at hjpos hjgt hr
          have hq : j.quoteVolume = k.quoteVolume := by
            have hne : k.netInflow ≠ 0 := ne_of_gt hjpos
            rw [div_eq_div_iff (ne_of_gt hqj) (ne_of_gt hqk)] at hr
            have := mul_left_cancel₀ hne (by linarith [hr] : k.netInflow * k.quoteVolume =
              k.netInflow * j.quoteVolume)
            linarith [this]
          rw [← hq]
          exact hjgt
        · rw [if_neg hqj] at hr
          rw [hn] at hjpos
          have hpos : (0 : ℚ) < k.netInflow / k.quoteVolume := div_pos hjpos hqk
          rw [← hr] at hpos
          exact absurd hpos (lt_irrefl 0)
      · have hkpos : 0 < k.netInflow := hn ▸ hjpos
        have hq0 : k.quoteVolume ≤ 0 := not_lt.1 hqk
        nlinarith
    · rintro ⟨hpos, hgt⟩
      exact ⟨k, hk, (inflow_mem_barAnomalies _ _ _ _ k k).2 ⟨rfl, hpos, hgt⟩⟩
  · rw [hlist, List.mem_flatMap]
    constructor
    · rintro ⟨j, hj, hmem⟩
      rw [outflow_mem_barAnomalies] at hmem
      obtain ⟨heq, hjneg, hjgt⟩ := hmem
      have hn : j.netInflow = k.netInflow := by
        have h' := congrArg Anomaly.netInflow heq
        simp only [extremeOutflowAnomaly, Option.some.injEq,
          NetInflowAnomalyInfo.mk.injEq] at h'
        exact h'.1
      have hr : (if 0 < j.quoteVolume then |j.netInflow| / j.quoteVolume else 0) =
          (if 0 < k.quoteVolume then |k.netInflow| / k.quoteVolume else 0) := by
        have h' := congrArg Anomaly.outflowRatio heq
        simp only [extremeOutflowAnomaly, Option.some.injEq] at h'
        exact h'
      refine ⟨hn ▸ hjneg, ?_⟩
      by_cases hqk : 0 < k.quoteVolume
      · rw [if_pos hqk] at hr
        by_cases hqj : 0 < j.quoteVolume
        · rw [if_pos hqj] at hr
          rw [hn] at hjneg hjgt hr
          have habs : (0 : ℚ) < |k.netInflow| := abs_pos.2 (ne_of_lt hjneg)
          have hq : j.quoteVolume = k.quoteVolume := by
            have hne : |k.netInflow| ≠ 0 := ne_of_gt habs
            rw [div_eq_div_iff (ne_of_gt hqj) (ne_of_gt hqk)] at hr
            have := mul_left_cancel₀ hne (by linarith [hr] : |k.netInflow| * k.quoteVolume =
              |k.netInflow| * j.quoteVolume)
            linarith [this]
          rw [← hq]
          exact hjgt
        · rw [if_neg hqj] at hr
          rw [hn] at hjneg
          have habs : (0 : ℚ) < |k.netInflow| := abs_pos.2 (ne_of_lt hjneg)
          have hpos : (0 : ℚ) < |k.netInflow| / k.quoteVolume := div_pos habs hqk
          rw [← hr] at hpos
          exact absurd hpos (lt_irrefl 0)
      · have hkneg : k.netInflow < 0 := hn ▸ hjneg
        have hq0 : k.quoteVolume ≤ 0 := not_lt.1 hqk
        have habs : (0 : ℚ) < |k.netInflow| := abs_pos.2 (ne_of_lt hkneg)
        nlinarith
    · rintro ⟨hneg, hgt⟩
      exact ⟨k, hk, (outflow_mem_barAnomalies _ _ _ _ k k).2 ⟨rfl, hneg, hgt⟩⟩
  · intro a ha htype
    rw [hlist, List.mem_flatMap] at ha
    obtain ⟨j, hj, hmem⟩ := ha
    rcases barAnomalies_cases _ _ _ _ _ _ hmem with h | h | h | h
    · rw [htype] at h
      simp at h
    · rw [htype] at h
      simp at h
    · rw [h]
      exact ⟨_, rfl, rfl⟩
    · rw [h] at htype
      simp [extremeOutflowAnomaly] at htype
  · intro a ha htype
    rw [hlist, List.mem_flatMap] at ha
    obtain ⟨j, hj, hmem⟩ := ha
    rcases barAnomalies_cases _ _ _ _ _ _ hmem with h | h | h | h
    · rw [htype] at h
      simp at h
    · rw [htype] at h
      simp at h
    · rw [h] at htype
      simp [extremeInflowAnomaly] at htype
    · rw [h]
      exact ⟨_, rfl, rfl⟩

/-- Five concrete bars whose first bar has net inflow 10 against quote volume
10, an extreme net inflow (10 > 0.7 * 10). -/
def anomalyBars : List Kline :=
  [⟨0, 0, 1, 1, 1, 1, 1, 10, 1, 1, 10, 0⟩,
   ⟨1, 1, 1, 1, 1, 1, 1, 10, 1, 1, 0, 0⟩,
   ⟨2, 2, 1, 1, 1, 1, 1, 10, 1, 1, 0, 0⟩,
   ⟨3, 3, 1, 1, 1, 1, 1, 10, 1, 1, 0, 0⟩,
   ⟨4, 4, 1, 1, 1, 1, 1, 10, 1, 1, 0, 0⟩]

/-- C9, witness: the extreme-net-inflow membership equivalence at the
concrete five-bar window `anomalyBars` and its first bar. -/
theorem detectAnomalies_extreme_net_flow_witness :
    (5 ≤ anomalyBars.length ∧
      (⟨0, 0, 1, 1, 1, 1, 1, 10, 1, 1, 10, 0⟩ : Kline) ∈ anomalyBars) ∧
    (extremeInflowAnomaly ⟨0, 0, 1, 1, 1, 1, 1, 10, 1, 1, 10, 0⟩ ∈
        (detectAnomalies anomalyBars).anomalies ↔
      0 < (⟨0, 0, 1, 1, 1, 1, 1, 10, 1, 1, 10, 0⟩ : Kline).netInflow ∧
        0.7 * (⟨0, 0, 1, 1, 1, 1, 1, 10, 1, 1, 10, 0⟩ : Kline).quoteVolume <
          (⟨0, 0, 1, 1, 1, 1, 1, 10, 1, 1, 10, 0⟩ : Kline).netInflow) := by
  have h5 : 5 ≤ anomalyBars.length := by norm_num [anomalyBars]
  have hk : (⟨0, 0, 1, 1, 1, 1, 1, 10, 1, 1, 10, 0⟩ : Kline) ∈ anomalyBars :=
    List.mem_cons_self _ _
  exact ⟨⟨h5, hk⟩, (detectAnomalies_extreme_net_flow anomalyBars h5 _ hk).1⟩
